import Mathlib

/-!
Verification development for the `aws-workflow` durable workflow coordinator.

The definitions below are a shallow embedding of the repository's queue
client (`src/world/queue.ts`), the DynamoDB conditional step create and the
Lambda worker batch dispatch / sleep deferral (code excerpted in
`src/RUNTIME_RESUME_ISSUE.md`).  JS strings are Lean `String`s, JS numbers
that hold counters or durations are `Nat`/`Int`, thrown JS errors are
modelled as an explicit `Except`/error value, and the mutable state touched
by an operation is passed and returned explicitly.
-/

namespace AwsWorkflow

/-- A thrown JavaScript error, identified by its constructor name and message.
`new Error(msg)` has name `"Error"`; a `TransportError` would have name
`"TransportError"`. -/
structure JsError where
  name : String
  message : String
deriving DecidableEq, Repr

/-- The two queue families of `src/world/queue.ts` (`QueuePrefix` in the
source: the string literals `__wkf_workflow_` and `__wkf_step_`). -/
inductive QueueKind where
  | workflow
  | step
deriving DecidableEq, Repr

/-- The literal tag string each queue family uses in queue names. -/
def tagOf : QueueKind → String
  | .workflow => "__wkf_workflow_"
  | .step => "__wkf_step_"

/-- JS `String.prototype.startsWith`, modelled over the character list. -/
def jsStartsWith (s pat : String) : Bool := pat.data.isPrefixOf s.data

/-- JS `String.prototype.endsWith`, modelled over the character list. -/
def jsEndsWith (s pat : String) : Bool := pat.data.isSuffixOf s.data

/-- JS `String.prototype.slice(n)`, modelled over the character list. -/
def jsSlice (s : String) (n : Nat) : String := ⟨s.data.drop n⟩

/-- `parseQueueName` from `src/world/queue.ts` (lines 19-27): splits a queue
name of the form `__wkf_workflow_someId` / `__wkf_step_someId` into its
family and id, and throws on any other shape. -/
def parseQueueName (queueName : String) : Except JsError (QueueKind × String) :=
  if jsStartsWith queueName "__wkf_workflow_" then
    .ok (.workflow, jsSlice queueName "__wkf_workflow_".length)
  else if jsStartsWith queueName "__wkf_step_" then
    .ok (.step, jsSlice queueName "__wkf_step_".length)
  else
    .error ⟨"Error", "Invalid queue name format: " ++ queueName⟩

/-- The `Queues` record of `src/world/queue.ts`: the configured queue URL for
each family (`config.queues.workflow` / `config.queues.step`).  A missing
URL is modelled as the empty string, which is exactly what the JS falsiness
check `if (!queueUrl)` rejects. -/
structure QueuesConfig where
  workflow : String
  step : String
deriving DecidableEq, Repr

/-- Lookup `Queues[prefix]`. -/
def queueUrlFor (q : QueuesConfig) : QueueKind → String
  | .workflow => q.workflow
  | .step => q.step

/-- The JSON message body built by `queue` in `src/world/queue.ts`
(lines 79-86): `id`, base64 payload `data`, a hard-coded `attempt: 1`,
the freshly generated `messageId` and the caller's optional
`idempotencyKey`. -/
structure MessageBody where
  id : String
  data : String
  attempt : Nat
  messageId : String
  idempotencyKey : Option String
deriving DecidableEq, Repr

/-- The `SendMessageCommand` parameters assembled by `queue`
(`src/world/queue.ts` lines 76-93): the FIFO attributes are present iff the
queue URL ends in `.fifo`. -/
structure SendMessageParams where
  queueUrl : String
  messageBody : MessageBody
  messageDeduplicationId : Option String
  messageGroupId : Option String
deriving DecidableEq, Repr

/-- The state the enqueue path touches: the list of messages accepted by the
SQS substrate so far, and the state of the monotonic ulid factory that
generates message ids (abstracted as a counter). -/
structure QueueState where
  sent : List SendMessageParams
  ulidCounter : Nat
deriving DecidableEq, Repr

/-- Message id produced by `MessageId.parse(`msg_${generateMessageId()}`)`,
with the monotonic ulid factory abstracted as a counter. -/
def mkMessageId (n : Nat) : String := "msg_" ++ toString n

/-- `queue` from `src/world/queue.ts` (lines 50-98), the enqueue operation.
`sendFault` is the substrate's response to `client.send`: `none` means the
send succeeded, `some e` means the SQS client rejected with `e` (which the
source does not catch, so it propagates to the caller).  Returns the new
state together with either the thrown error or the returned `messageId`. -/
def enqueue (q : QueuesConfig) (st : QueueState) (queueName data : String)
    (idempotencyKey : Option String) (sendFault : Option JsError) :
    QueueState × Except JsError String :=
  match parseQueueName queueName with
  | .error e => (st, .error e)
  | .ok (kind, queueId) =>
    let queueUrl := queueUrlFor q kind
    if queueUrl = "" then
      (st, .error ⟨"Error",
        "Queue URL not found for prefix: " ++ tagOf kind ++
          ". Available: __wkf_workflow_, __wkf_step_"⟩)
    else
      let messageId := mkMessageId st.ulidCounter
      let body : MessageBody :=
        { id := queueId, data := data, attempt := 1
          messageId := messageId, idempotencyKey := idempotencyKey }
      let params : SendMessageParams :=
        { queueUrl := queueUrl
          messageBody := body
          messageDeduplicationId :=
            if jsEndsWith queueUrl ".fifo" then
              some (idempotencyKey.getD messageId)
            else none
          messageGroupId :=
            if jsEndsWith queueUrl ".fifo" then some queueId else none }
      match sendFault with
      | some e => ({ st with ulidCounter := st.ulidCounter + 1 }, .error e)
      | none =>
        ({ sent := st.sent ++ [params], ulidCounter := st.ulidCounter + 1 },
          .ok messageId)

/-- Whether a thrown error is a `TransportError` (spec taxonomy, §7). -/
def isTransportError (e : JsError) : Bool := e.name == "TransportError"

/-! ### Delivery and redelivery of a queued message

SQS redelivers an unacknowledged message with its body byte-for-byte
unchanged; only the receive count on the substrate side grows.  The body the
handler sees on the `k`-th delivery is therefore the body that was enqueued. -/

/-- The body presented by the substrate on delivery number `k` (0-based) of
a queued message: SQS never rewrites the message body on redelivery. -/
def deliveredBody (b : MessageBody) (_k : Nat) : MessageBody := b

/-- The `attempt` the poll loop reports to the handler from a message body:
`body.attempt || 1` in `src/world/queue.ts` line 152 (JS `||` replaces a
falsy `0` by `1`). -/
def observedAttempt (b : MessageBody) : Nat :=
  if b.attempt = 0 then 1 else b.attempt

/-- The `meta.attempt` the handler observes on delivery number `k` of a
message with body `b`. -/
def metaAttemptOnDelivery (b : MessageBody) (k : Nat) : Nat :=
  observedAttempt (deliveredBody b k)

/-! ### Processing a received message (`pollQueue`, `src/world/queue.ts`
lines 103-183) -/

/-- A raw SQS message as received: `Body` and `ReceiptHandle` may be
absent. -/
structure RawMessage where
  body : Option String
  receiptHandle : Option String
deriving DecidableEq, Repr

/-- What the handler invocation did: returned a `Response` with some status,
or threw. -/
inductive HandlerResult where
  | respond (status : Nat)
  | threw
deriving DecidableEq, Repr

/-- A command the poll loop issues to the SQS substrate while processing one
message.  Only `DeleteMessageCommand` (the acknowledgement) occurs in this
code path. -/
inductive SqsCommand where
  | deleteMessage (queueUrl receiptHandle : String)
deriving DecidableEq, Repr

/-- The per-message body of the poll loop (`src/world/queue.ts` lines
117-176): skip messages missing `Body`/`ReceiptHandle`; parse the body and
payload (`parseOk = false` models a throw there); invoke the handler; delete
the message iff the handler responded with status 200.  Every other path —
parse failure, handler throw, non-200 status — issues no delete, leaving the
message to become visible again after its visibility window.  Returns the
substrate commands issued. -/
def processMessage (queueUrl : String) (m : RawMessage) (parseOk : Bool)
    (handler : HandlerResult) : List SqsCommand :=
  match m.body, m.receiptHandle with
  | some _, some rh =>
    if parseOk then
      match handler with
      | .respond status =>
        if status = 200 then [.deleteMessage queueUrl rh] else []
      | .threw => []
    else []
  | _, _ => []

/-- Whether processing acknowledged (deleted) the message. -/
def acknowledged (queueUrl : String) (m : RawMessage) (parseOk : Bool)
    (handler : HandlerResult) : Prop :=
  ∃ rh, SqsCommand.deleteMessage queueUrl rh ∈
    processMessage queueUrl m parseOk handler

/-! ### `start()` (`src/world/queue.ts` lines 185-197) -/

/-- The mutable flags captured by the `createQueue` closure
(`src/world/queue.ts` lines 100-101). -/
structure ClientState where
  isStarted : Bool
  shouldStop : Bool
deriving DecidableEq, Repr

/-- A polling loop spawned by `start`, one per queue. -/
inductive Poller where
  | workflow
  | step
deriving DecidableEq, Repr

/-- `start` from `src/world/queue.ts` (lines 185-197): returns at once if
already started; otherwise flips the flags and spawns one poller per queue
(workflow and step).  Result: the new client state and the pollers spawned
by this call. -/
def start (s : ClientState) : ClientState × List Poller :=
  if s.isStarted then (s, [])
  else ({ isStarted := true, shouldStop := false }, [.workflow, .step])

/-! ### The idempotency ledger's conditional step create
(`storage.ts` `create`, excerpted in `src/RUNTIME_RESUME_ISSUE.md` lines
166-189) -/

/-- A Step record as persisted in the steps table. -/
structure StepRecord where
  stepId : String
  runId : String
  name : String
  status : String
  output : Option String
  error : Option String
deriving DecidableEq, Repr

/-- The steps table, keyed by `stepId` (the attribute named in the
`ConditionExpression`). -/
def StepsTable := List (String × StepRecord)

/-- Read the record stored under a `stepId`, if any. -/
def lookupStep (t : StepsTable) (stepId : String) : Option StepRecord :=
  (t.find? (fun p => p.1 == stepId)).map (·.2)

/-- An error thrown by the storage layer: the discriminable
`WorkflowAPIError` raised on a conditional-check conflict (carrying an HTTP
status), or any other error rethrown as-is. -/
inductive LedgerError where
  | workflowAPIError (message : String) (status : Nat)
  | other (e : JsError)
deriving DecidableEq, Repr

/-- `create` from `storage.ts` (excerpt in `src/RUNTIME_RESUME_ISSUE.md`):
a `PutCommand` guarded by `ConditionExpression: attribute_not_exists(stepId)`.
If the key already exists, DynamoDB raises `ConditionalCheckFailedException`,
which the source converts to `WorkflowAPIError("Step already exists: ...",
status 409)`; any other substrate fault (`fault = some e`) is rethrown
unchanged; otherwise the record is written.  Returns the table after the
call and the thrown error or created record. -/
def create (t : StepsTable) (step : StepRecord) (fault : Option JsError) :
    StepsTable × Except LedgerError StepRecord :=
  if (lookupStep t step.stepId).isSome then
    (t, .error (.workflowAPIError ("Step already exists: " ++ step.stepId) 409))
  else
    match fault with
    | some e => (t, .error (.other e))
    | none => ((step.stepId, step) :: t, .ok step)

/-- Re-running `create` over a whole list of duplicate deliveries: the table
after folding each delivery's create call (faults aside). -/
def createAll (t : StepsTable) (deliveries : List StepRecord) : StepsTable :=
  deliveries.foldl (fun acc d => (create acc d none).1) t

/-! ### Lambda worker batch dispatch
(`lambda/worker/index.ts`, excerpted in `src/RUNTIME_RESUME_ISSUE.md` lines
102-131) -/

/-- An inbound SQS record as classified by the worker: which queue it came
from (via `eventSourceARN`) and the run it belongs to. -/
structure SQSRecord where
  source : QueueKind
  runId : String
  body : String
deriving DecidableEq, Repr

/-- The step partition of a batch, in receipt order (`stepMessages`). -/
def stepMessages (batch : List SQSRecord) : List SQSRecord :=
  batch.filter (fun r => r.source == QueueKind.step)

/-- The workflow partition of a batch, in receipt order
(`workflowMessages`). -/
def workflowMessages (batch : List SQSRecord) : List SQSRecord :=
  batch.filter (fun r => r.source == QueueKind.workflow)

/-- Abstract processing schedule of a strictly sequential `for … await` loop
starting at time `t`: the `i`-th message occupies the half-open interval
`[t + i, t + i + 1)`, each interval ending before the next begins. -/
def seqSchedule (t : Nat) : List SQSRecord → List (SQSRecord × Nat × Nat)
  | [] => []
  | r :: rs => (r, t, t + 1) :: seqSchedule (t + 1) rs

/-- The worker's dispatch of one batch: step messages are launched together
via `Promise.allSettled` (all sharing the interval `[0, 1)`, so they may
overlap), then workflow messages are processed strictly sequentially in
receipt order (`for (const record of workflowMessages) await …`). -/
def dispatchSchedule (batch : List SQSRecord) :
    List (SQSRecord × Nat × Nat) :=
  (stepMessages batch).map (fun r => (r, 0, 1)) ++
    seqSchedule 1 (workflowMessages batch)

/-- The workflow part of the dispatch schedule. -/
def wfSchedule (batch : List SQSRecord) : List (SQSRecord × Nat × Nat) :=
  seqSchedule 1 (workflowMessages batch)

/-- Two half-open intervals overlap. -/
def overlaps (a b : Nat × Nat) : Prop := a.1 < b.2 ∧ b.1 < a.2

/-! ### Sleep deferral (`lambda/worker/index.ts`, excerpted in
`src/RUNTIME_RESUME_ISSUE.md` lines 139-157) -/

/-- The per-call clamp applied to a requested visibility extension:
`Math.max(1, Math.min(43200, directive.timeoutSeconds))` — 43200 seconds
(12 hours) is SQS's maximum visibility timeout per call. -/
def clampVisibility (timeoutSeconds : Int) : Int :=
  max 1 (min 43200 timeoutSeconds)

/-- The same clamp restricted to the non-negative durations a `sleep`
requests. -/
def clampVisibilityNat (timeoutSeconds : Nat) : Nat :=
  max 1 (min 43200 timeoutSeconds)

/-- Modelled from the spec: the Delay/Deferral Abstraction's re-splitting
bookkeeping (spec §4.6 `scheduleWake`) is not under `src/` — only the
per-call clamp is (the worker excerpt above).  Per the spec, a requested
sleep of `totalSeconds` is issued as repeated clamped extensions until the
cumulative delay satisfies the request.  `fuel` bounds the recursion and is
instantiated with `totalSeconds`, which always suffices since every hop is
at least 1 second. -/
def scheduleWakeAux : Nat → Nat → List Nat
  | 0, _ => []
  | _ + 1, 0 => []
  | fuel + 1, total + 1 =>
    let hop := clampVisibilityNat (total + 1)
    hop :: scheduleWakeAux fuel (total + 1 - hop)

/-- Modelled from the spec: `scheduleWake(totalSeconds)` — the sequence of
single visibility extensions issued for one requested sleep. -/
def scheduleWake (totalSeconds : Nat) : List Nat :=
  scheduleWakeAux totalSeconds totalSeconds

/-! ## Theorems -/

/-- C9: for every queue name that starts with neither `__wkf_workflow_` nor
`__wkf_step_`, the enqueue operation throws the invalid-name error and the
queue state is returned unchanged: no message id is generated (the ulid
counter does not advance) and nothing reaches the substrate (the sent list
is untouched). -/
theorem c9_invalid_name_enqueue_atomic (q : QueuesConfig) (st : QueueState)
    (name data : String) (ik : Option String) (fault : Option JsError)
    (h1 : jsStartsWith name "__wkf_workflow_" = false)
    (h2 : jsStartsWith name "__wkf_step_" = false) :
    enqueue q st name data ik fault =
      (st, .error ⟨"Error", "Invalid queue name format: " ++ name⟩) := by
  simp [enqueue, parseQueueName, h1, h2]

/-- Witness for C9: the concrete name `"orders"` matches neither tag, and
enqueueing it leaves the state unchanged and throws. -/
theorem c9_witness :
    (jsStartsWith "orders" "__wkf_workflow_" = false) ∧
    (jsStartsWith "orders" "__wkf_step_" = false) ∧
    enqueue ⟨"wq", "sq"⟩ ⟨[], 0⟩ "orders" "d" none none =
      (⟨[], 0⟩, .error ⟨"Error", "Invalid queue name format: " ++ "orders"⟩) :=
  ⟨by decide, by decide,
    c9_invalid_name_enqueue_atomic ⟨"wq", "sq"⟩ ⟨[], 0⟩ "orders" "d" none none
      (by decide) (by decide)⟩

/-- C10: `start()` is idempotent: on a not-yet-started client it sets the
flags and spawns exactly one poller per queue (workflow and step); on a
started client it returns without spawning pollers or changing state; in
particular a second call after any first call is a no-op. -/
theorem c10_start_idempotent (s : ClientState) :
    (s.isStarted = false →
      start s =
        ({ isStarted := true, shouldStop := false }, [.workflow, .step])) ∧
    (s.isStarted = true → start s = (s, [])) ∧
    start (start s).1 = ((start s).1, []) := by
  cases h : s.isStarted <;> simp [start, h]

/-- Witness for C10: on the fresh client the first call spawns the two
pollers and the second call spawns none. -/
theorem c10_witness :
    start ⟨false, false⟩ = (⟨true, false⟩, [.workflow, .step]) ∧
    start ⟨true, false⟩ = (⟨true, false⟩, []) :=
  ⟨(c10_start_idempotent ⟨false, false⟩).1 rfl,
    (c10_start_idempotent ⟨true, false⟩).2.1 rfl⟩

/-- C4: the poll loop acknowledges (deletes) a received message iff the
message had a body and receipt handle, its payload parsed, and the handler
returned HTTP 200; on any parse failure, handler throw or non-200 status no
delete is issued, leaving the message to reappear after its visibility
window. -/
theorem c4_ack_iff_handler_200 (queueUrl : String) (m : RawMessage)
    (parseOk : Bool) (handler : HandlerResult) :
    acknowledged queueUrl m parseOk handler ↔
      (m.body.isSome = true ∧ m.receiptHandle.isSome = true ∧
        parseOk = true ∧ handler = .respond 200) := by
  obtain ⟨b, rh⟩ := m
  cases b <;> cases rh <;> cases parseOk <;>
    cases handler with
    | threw => simp [acknowledged, processMessage]
    | respond status =>
      by_cases hs : status = 200 <;>
        simp [acknowledged, processMessage, hs]

/-- C8: for every enqueue whose resolved queue URL is FIFO (ends in
`.fifo`), the message sent to the substrate carries `MessageGroupId` equal
to the queue id parsed from the queue name and `MessageDeduplicationId`
equal to the caller's `idempotencyKey` when provided, otherwise the freshly
generated message id; for a non-FIFO URL neither attribute is set. -/
theorem c8_fifo_attributes (q : QueuesConfig) (st : QueueState)
    (name data : String) (ik : Option String) (kind : QueueKind)
    (qid : String) (hp : parseQueueName name = .ok (kind, qid))
    (hu : queueUrlFor q kind ≠ "") :
    ∃ p : SendMessageParams,
      (enqueue q st name data ik none).1.sent = st.sent ++ [p] ∧
      p.queueUrl = queueUrlFor q kind ∧
      (jsEndsWith (queueUrlFor q kind) ".fifo" = true →
        p.messageGroupId = some qid ∧
        p.messageDeduplicationId =
          some (ik.getD (mkMessageId st.ulidCounter))) ∧
      (jsEndsWith (queueUrlFor q kind) ".fifo" = false →
        p.messageGroupId = none ∧ p.messageDeduplicationId = none) := by
  refine
    ⟨{ queueUrl := queueUrlFor q kind
       messageBody :=
        { id := qid, data := data, attempt := 1
          messageId := mkMessageId st.ulidCounter, idempotencyKey := ik }
       messageDeduplicationId :=
        if jsEndsWith (queueUrlFor q kind) ".fifo" then
          some (ik.getD (mkMessageId st.ulidCounter))
        else none
       messageGroupId :=
        if jsEndsWith (queueUrlFor q kind) ".fifo" then some qid else none },
      ?_, rfl, ?_, ?_⟩
  · simp [enqueue, hp, hu]
  · intro hf
    simp [hf]
  · intro hf
    simp [hf]

/-- Witness for C8: a FIFO workflow queue URL; the sent message's group id
is the run's queue id `run1` and its deduplication id is the caller's
idempotency key `idem1`. -/
theorem c8_witness :
    parseQueueName "__wkf_workflow_run1" =
      .ok (QueueKind.workflow, "run1") ∧
    (∃ p : SendMessageParams,
      (enqueue ⟨"https://sqs/wq.fifo", "sq"⟩ ⟨[], 0⟩ "__wkf_workflow_run1"
          "d" (some "idem1") none).1.sent = [] ++ [p] ∧
      p.queueUrl =
        queueUrlFor ⟨"https://sqs/wq.fifo", "sq"⟩ QueueKind.workflow ∧
      (jsEndsWith
          (queueUrlFor ⟨"https://sqs/wq.fifo", "sq"⟩ QueueKind.workflow)
          ".fifo" = true →
        p.messageGroupId = some "run1" ∧
        p.messageDeduplicationId = some ((some "idem1").getD (mkMessageId 0))) ∧
      (jsEndsWith
          (queueUrlFor ⟨"https://sqs/wq.fifo", "sq"⟩ QueueKind.workflow)
          ".fifo" = false →
        p.messageGroupId = none ∧ p.messageDeduplicationId = none)) :=
  ⟨rfl,
    c8_fifo_attributes ⟨"https://sqs/wq.fifo", "sq"⟩ ⟨[], 0⟩
      "__wkf_workflow_run1" "d" (some "idem1") QueueKind.workflow "run1"
      rfl (by decide)⟩

/-- C7: a conditional-create conflict (the record for the step's key already
exists) surfaces as the distinct `WorkflowAPIError` conflict condition with
HTTP status 409, which is a different constructor from every generic
(rethrown) error, so callers can discriminate "already done" from
"failed". -/
theorem c7_conflict_distinct (t : StepsTable) (step : StepRecord)
    (fault : Option JsError) (r : StepRecord)
    (h : lookupStep t step.stepId = some r) :
    (create t step fault).2 =
      .error
        (.workflowAPIError ("Step already exists: " ++ step.stepId) 409) ∧
    ∀ e : JsError,
      LedgerError.workflowAPIError
          ("Step already exists: " ++ step.stepId) 409 ≠
        LedgerError.other e := by
  constructor
  · simp [create, h]
  · intro e hEq
    exact LedgerError.noConfusion hEq

/-- Witness for C7: re-creating an existing step record raises the 409
conflict error. -/
theorem c7_witness :
    lookupStep [("s1", ⟨"s1", "r1", "createUser", "completed",
        some "out", none⟩)] "s1" =
      some ⟨"s1", "r1", "createUser", "completed", some "out", none⟩ ∧
    ((create [("s1", ⟨"s1", "r1", "createUser", "completed",
          some "out", none⟩)]
        ⟨"s1", "r1", "createUser", "running", none, none⟩ none).2 =
      .error (.workflowAPIError ("Step already exists: " ++ "s1") 409) ∧
      ∀ e : JsError,
        LedgerError.workflowAPIError ("Step already exists: " ++ "s1") 409 ≠
          LedgerError.other e) :=
  ⟨by decide,
    c7_conflict_distinct
      [("s1", ⟨"s1", "r1", "createUser", "completed", some "out", none⟩)]
      ⟨"s1", "r1", "createUser", "running", none, none⟩ none
      ⟨"s1", "r1", "createUser", "completed", some "out", none⟩ (by decide)⟩

/-- A create against a key that is already present leaves the table
untouched. -/
theorem create_existing_fixes_table (t : StepsTable) (d : StepRecord)
    (h : (lookupStep t d.stepId).isSome = true) :
    (create t d none).1 = t := by
  simp [create, h]

/-- Folding any number of duplicate creates for a key that is already
present leaves the table untouched. -/
theorem createAll_fixes_table (t : StepsTable) (k : String)
    (dups : List StepRecord) (hk : (lookupStep t k).isSome = true)
    (hdups : ∀ d ∈ dups, d.stepId = k) :
    createAll t dups = t := by
  induction dups with
  | nil => rfl
  | cons d ds ih =>
    have hd : d.stepId = k := hdups d (by simp)
    have h1 : (create t d none).1 = t := by
      apply create_existing_fixes_table
      rw [hd]
      exact hk
    show createAll (create t d none).1 ds = t
    rw [h1]
    exact ih fun d' hd' => hdups d' (by simp [hd'])

/-- C2: for a given `stepId`, at most one Step record is ever durably
created: creating it once stores the record, and re-running the conditional
create for any number of duplicate deliveries is a durable no-op — the table
is unchanged and every duplicate read returns the original record (so its
terminal `output`/`error` reads identically on every redelivery). -/
theorem c2_conditional_create_idempotent (rec : StepRecord)
    (dups : List StepRecord) (hdups : ∀ d ∈ dups, d.stepId = rec.stepId) :
    lookupStep (create [] rec none).1 rec.stepId = some rec ∧
    createAll (create [] rec none).1 dups = (create [] rec none).1 ∧
    lookupStep (createAll (create [] rec none).1 dups) rec.stepId =
      some rec := by
  have hstore : lookupStep (create [] rec none).1 rec.stepId = some rec := by
    simp [create, lookupStep]
  have hfix : createAll (create [] rec none).1 dups = (create [] rec none).1 :=
    createAll_fixes_table _ rec.stepId dups (by rw [hstore]; rfl) hdups
  exact ⟨hstore, hfix, by rw [hfix]; exact hstore⟩

/-- Witness for C2: the step of the resolved issue's DynamoDB trace,
redelivered twice; the table still holds exactly the original record with
its original output. -/
theorem c2_witness :
    (∀ d ∈ [(⟨"step_01K8", "run_01K8", "createUser", "running",
          none, none⟩ : StepRecord),
        ⟨"step_01K8", "run_01K8", "createUser", "running", none, none⟩],
      d.stepId =
        (⟨"step_01K8", "run_01K8", "createUser", "completed",
          some "User created with ID: user_abc123", none⟩ : StepRecord).stepId) ∧
    lookupStep
        (createAll
          (create []
            ⟨"step_01K8", "run_01K8", "createUser", "completed",
              some "User created with ID: user_abc123", none⟩ none).1
          [⟨"step_01K8", "run_01K8", "createUser", "running", none, none⟩,
            ⟨"step_01K8", "run_01K8", "createUser", "running", none, none⟩])
        "step_01K8" =
      some ⟨"step_01K8", "run_01K8", "createUser", "completed",
        some "User created with ID: user_abc123", none⟩ :=
  ⟨by decide,
    (c2_conditional_create_idempotent
      ⟨"step_01K8", "run_01K8", "createUser", "completed",
        some "User created with ID: user_abc123", none⟩
      [⟨"step_01K8", "run_01K8", "createUser", "running", none, none⟩,
        ⟨"step_01K8", "run_01K8", "createUser", "running", none, none⟩]
      (by decide)).2.2⟩

/-- C6 counterexample: when no queue URL resolves for a well-formed queue
name, `queue` throws a plain `Error` (name `"Error"`), not a
`TransportError` — so the claim that every enqueue failure surfaces as a
thrown `TransportError` is false on the code. -/
theorem c6_counterexample :
    (enqueue ⟨"", "sq"⟩ ⟨[], 0⟩ "__wkf_workflow_run1" "d" none none).2 =
      .error ⟨"Error",
        "Queue URL not found for prefix: __wkf_workflow_. Available: __wkf_workflow_, __wkf_step_"⟩ ∧
    isTransportError ⟨"Error",
        "Queue URL not found for prefix: __wkf_workflow_. Available: __wkf_workflow_, __wkf_step_"⟩ =
      false :=
  ⟨rfl, rfl⟩

/-- C6 (amended): every failure of the enqueue operation is surfaced to the
caller as a thrown error — a `messageId` is returned iff the queue name
parsed, a queue URL resolved and the substrate accepted the send; no
enqueue failure is ever silently dropped.  (The thrown error is a generic
`Error`, or the substrate's own rejection propagated uncaught, not a
`TransportError`.) -/
theorem c6_enqueue_failure_surfaced (q : QueuesConfig) (st : QueueState)
    (name data : String) (ik : Option String) (fault : Option JsError) :
    (∃ mid, (enqueue q st name data ik fault).2 = .ok mid) ↔
      ((∃ kind qid, parseQueueName name = .ok (kind, qid) ∧
          queueUrlFor q kind ≠ "") ∧ fault = none) := by
  cases hp : parseQueueName name with
  | error e => simp [enqueue, hp]
  | ok kq =>
    obtain ⟨kind, qid⟩ := kq
    by_cases hu : queueUrlFor q kind = "" <;>
      cases fault <;> simp [enqueue, hp, hu]

/-- C1 (recording the divergence): the enqueue path serializes `attempt: 1`
into the immutable message body and the poll loop reports `body.attempt`
back to the handler, so the handler observes `attempt = 1` on every
delivery, including every redelivery — never the previous delivery's
attempt plus one.  (The application indeed never increments `attempt`, but
neither does anything else that the handler can observe.) -/
theorem c1_attempt_constant_on_redelivery :
    ∃ p : SendMessageParams,
      (enqueue ⟨"https://sqs/wq", "https://sqs/sq"⟩ ⟨[], 0⟩
          "__wkf_workflow_run1" "d" none none).1.sent = [p] ∧
      p.messageBody.attempt = 1 ∧
      (∀ k : Nat, metaAttemptOnDelivery p.messageBody k = 1) ∧
      ¬ metaAttemptOnDelivery p.messageBody 1 =
          metaAttemptOnDelivery p.messageBody 0 + 1 := by
  refine ⟨⟨"https://sqs/wq", ⟨"run1", "d", 1, "msg_0", none⟩, none, none⟩,
    rfl, rfl, ?_, by decide⟩
  intro k
  rfl

/-- Each clamped extension is at least one second. -/
theorem clampVisibilityNat_pos (t : Nat) : 1 ≤ clampVisibilityNat t :=
  le_max_left 1 _

/-- Each clamped extension never exceeds the substrate's 43200-second
maximum per call. -/
theorem clampVisibilityNat_le_max (t : Nat) : clampVisibilityNat t ≤ 43200 :=
  max_le (by norm_num) (min_le_left _ _)

/-- The clamp never overshoots a positive requested duration. -/
theorem clampVisibilityNat_le (t : Nat) (h : 1 ≤ t) :
    clampVisibilityNat t ≤ t :=
  max_le h (min_le_right _ _)

/-- The source's `Int`-valued clamp agrees with the `Nat` clamp on the
non-negative durations a `sleep` requests. -/
theorem clampVisibility_natCast (t : Nat) :
    clampVisibility (t : Int) = (clampVisibilityNat t : Int) := by
  unfold clampVisibility clampVisibilityNat
  push_cast
  rfl

/-- Every hop issued by the wake scheduler is a clamped extension: between
1 and 43200 seconds. -/
theorem scheduleWakeAux_hops_bounded (fuel total : Nat) :
    ∀ hop ∈ scheduleWakeAux fuel total, 1 ≤ hop ∧ hop ≤ 43200 := by
  induction fuel generalizing total with
  | zero => intro hop h; simp [scheduleWakeAux] at h
  | succ f ih =>
    cases total with
    | zero => intro hop h; simp [scheduleWakeAux] at h
    | succ t =>
      intro hop h
      rw [scheduleWakeAux] at h
      rcases List.mem_cons.mp h with rfl | h
      · exact ⟨clampVisibilityNat_pos _, clampVisibilityNat_le_max _⟩
      · exact ih _ hop h

/-- The hops of a wake schedule sum to exactly the requested duration,
provided the fuel covers it. -/
theorem scheduleWakeAux_sum (fuel total : Nat) (h : total ≤ fuel) :
    (scheduleWakeAux fuel total).sum = total := by
  induction fuel generalizing total with
  | zero =>
    have : total = 0 := Nat.le_zero.mp h
    subst this
    simp [scheduleWakeAux]
  | succ f ih =>
    cases total with
    | zero => simp [scheduleWakeAux]
    | succ t =>
      have h1 : 1 ≤ clampVisibilityNat (t + 1) := clampVisibilityNat_pos _
      have h2 : clampVisibilityNat (t + 1) ≤ t + 1 :=
        clampVisibilityNat_le _ (by omega)
      have h3 : t + 1 - clampVisibilityNat (t + 1) ≤ f := by omega
      rw [scheduleWakeAux]
      simp only [List.sum_cons, ih _ h3]
      omega

/-- C5: the deferral mechanism issues only clamped visibility extensions —
every hop lies between 1 second and the substrate's 43200-second maximum
per call and is a fixed point of the clamp — their cumulative delay is
exactly the requested `totalSeconds` (so the wake's earliest redelivery is
at least `totalSeconds` after issuance, e.g. `sleep(3600)` wakes no earlier
than 3600s later), and a duration exceeding the maximum is re-split into at
least two hops. -/
theorem c5_sleep_deferral_clamped (totalSeconds : Nat) :
    (∀ hop ∈ scheduleWake totalSeconds,
      1 ≤ hop ∧ hop ≤ 43200 ∧ hop = clampVisibilityNat hop) ∧
    (scheduleWake totalSeconds).sum = totalSeconds ∧
    (43200 < totalSeconds → 2 ≤ (scheduleWake totalSeconds).length) := by
  refine ⟨?_, scheduleWakeAux_sum _ _ le_rfl, ?_⟩
  · intro hop h
    obtain ⟨h1, h2⟩ := scheduleWakeAux_hops_bounded _ _ hop h
    refine ⟨h1, h2, ?_⟩
    unfold clampVisibilityNat
    rw [min_eq_right h2, max_eq_right h1]
  · intro hgt
    have hsum : (scheduleWake totalSeconds).sum = totalSeconds :=
      scheduleWakeAux_sum _ _ le_rfl
    rcases hl : scheduleWake totalSeconds with _ | ⟨a, _ | ⟨b, rest⟩⟩
    · rw [hl] at hsum
      simp at hsum
      omega
    · have ha : a ∈ scheduleWake totalSeconds := by rw [hl]; simp
      have := (scheduleWakeAux_hops_bounded _ _ a ha).2
      rw [hl] at hsum
      simp at hsum
      omega
    · simp

/-- Witness for C5: a one-day sleep (86400s) exceeds the 43200s maximum and
is re-split into at least two hops whose cumulative delay is the full
86400s. -/
theorem c5_witness :
    43200 < 86400 ∧ 2 ≤ (scheduleWake 86400).length ∧
    (scheduleWake 86400).sum = 86400 :=
  ⟨by norm_num, (c5_sleep_deferral_clamped 86400).2.2 (by norm_num),
    (c5_sleep_deferral_clamped 86400).2.1⟩

/-- Every entry of a sequential schedule starting at `t` starts no earlier
than `t` and occupies exactly one slot. -/
theorem seqSchedule_mem_bounds (t : Nat) (rs : List SQSRecord) :
    ∀ e ∈ seqSchedule t rs, t ≤ e.2.1 ∧ e.2.2 = e.2.1 + 1 := by
  induction rs generalizing t with
  | nil => intro e he; simp [seqSchedule] at he
  | cons r rs ih =>
    intro e he
    rw [seqSchedule] at he
    rcases List.mem_cons.mp he with rfl | h
    · exact ⟨le_rfl, rfl⟩
    · obtain ⟨h1, h2⟩ := ih (t + 1) e h
      exact ⟨by omega, h2⟩

/-- A sequential schedule is pairwise ordered: each processing interval
ends no later than the next begins. -/
theorem seqSchedule_pairwise (t : Nat) (rs : List SQSRecord) :
    (seqSchedule t rs).Pairwise fun a b => a.2.2 ≤ b.2.1 := by
  induction rs generalizing t with
  | nil => exact List.Pairwise.nil
  | cons r rs ih =>
    rw [seqSchedule]
    refine List.Pairwise.cons ?_ (ih (t + 1))
    intro b hb
    exact (seqSchedule_mem_bounds (t + 1) rs b hb).1

/-- A sequential schedule processes exactly the given messages, in the
given order. -/
theorem seqSchedule_map_fst (t : Nat) (rs : List SQSRecord) :
    (seqSchedule t rs).map (fun e => e.1) = rs := by
  induction rs generalizing t with
  | nil => rfl
  | cons r rs ih => simp [seqSchedule, ih]

/-- Within one worker invocation's dispatch of one batch, the
workflow-resume messages receive pairwise non-overlapping processing
intervals in receipt order, while all step messages share the single
parallel slot `(0, 1)` and so may run concurrently.  This batch-level
sequencing is the only serialization the worker implements: it holds no
state across invocations and takes no per-run mutex or lease. -/
theorem dispatchSchedule_serializes_within_batch (batch : List SQSRecord) :
    (wfSchedule batch).Pairwise
      (fun a b => a.2.2 ≤ b.2.1 ∧ ¬ overlaps a.2 b.2) ∧
    (wfSchedule batch).map (fun e => e.1) = workflowMessages batch ∧
    ((stepMessages batch).map (fun r => (r, 0, 1))).map (fun e => e.2) =
      (stepMessages batch).map (fun _ => ((0 : Nat), (1 : Nat))) ∧
    dispatchSchedule batch =
      (stepMessages batch).map (fun r => (r, 0, 1)) ++ wfSchedule batch := by
  refine ⟨?_, seqSchedule_map_fst _ _, by rw [List.map_map]; rfl, rfl⟩
  refine (seqSchedule_pairwise 1 (workflowMessages batch)).imp ?_
  intro a b h
  exact ⟨h, fun hov => absurd hov.2 (not_lt.mpr h)⟩

/-- C3 (recording the divergence): the worker serializes workflow-resume
messages only within its own batch.  It holds no state across invocations
and implements no per-run mutex or lease, so nothing offsets the schedules
of two concurrent worker invocations against each other: two resume
messages for the same run delivered to two concurrent invocations are
dispatched on overlapping intervals of the shared timeline, and both are
inside the replay engine for that run at once.  Evaluated at the failing
input — two concurrent single-resume batches for run `r1` — each
invocation's dispatch runs its resume in the slot `(1, 2)`, and the two
slots overlap. -/
theorem c3_concurrent_resumes_overlap :
    dispatchSchedule [⟨QueueKind.workflow, "r1", "resume-a"⟩] =
      [(⟨QueueKind.workflow, "r1", "resume-a"⟩, 1, 2)] ∧
    dispatchSchedule [⟨QueueKind.workflow, "r1", "resume-b"⟩] =
      [(⟨QueueKind.workflow, "r1", "resume-b"⟩, 1, 2)] ∧
    (⟨QueueKind.workflow, "r1", "resume-a"⟩ : SQSRecord).runId =
      (⟨QueueKind.workflow, "r1", "resume-b"⟩ : SQSRecord).runId ∧
    overlaps (1, 2) (1, 2) := by
  refine ⟨rfl, rfl, rfl, ?_, ?_⟩ <;> norm_num

end AwsWorkflow
